import Mathlib

/-!
Shallow embedding of `fwprovider/nodes/storage_helpers.go` from
terraform-provider-proxmox: the replacement reconciler
(`applySizeRequiresReplace`) and the read/delete outcome classifiers
(`handleReadResult`, `handleDatastoreDeleteError`), together with the
pieces of the Go standard library they rely on (`strconv.ParseInt`,
`strings.Contains`, `errors.Is` against the resource-does-not-exist
sentinel).
-/

namespace StorageHelpers

/-- Severity of a terraform-plugin-framework diagnostic as used by the
helpers: `AddError` and `AddWarning`. -/
inductive Severity where
  | error : Severity
  | warning : Severity
deriving DecidableEq, Repr

/-- A diagnostic as appended by `Diagnostics.AddError` / `AddWarning`:
a severity, a summary and a detail string. -/
structure Diagnostic where
  severity : Severity
  summary : String
  detail : String
deriving DecidableEq, Repr

/-- A Go `error` value as the helpers observe it: either the
`api.ErrResourceDoesNotExist` sentinel, a plain error carrying a message,
or an error wrapping another one (as produced by `fmt.Errorf` with
the wrap verb), carrying its own full message. -/
inductive GoError where
  | resourceDoesNotExist : GoError
  | plain (msg : String) : GoError
  | wrap (msg : String) (inner : GoError) : GoError
deriving DecidableEq, Repr

/-- `err.Error()`: the message of a Go error. The sentinel's text is the
message of `api.ErrResourceDoesNotExist`; it never influences the helpers,
which only test the sentinel through `errors.Is`. -/
def GoError.message : GoError → String
  | .resourceDoesNotExist => "the requested resource does not exist"
  | .plain m => m
  | .wrap m _ => m

/-- `errors.Is(err, api.ErrResourceDoesNotExist)`: true when the error is
the sentinel or wraps it at any depth. -/
def GoError.isResourceDoesNotExist : GoError → Bool
  | .resourceDoesNotExist => true
  | .plain _ => false
  | .wrap _ e => e.isResourceDoesNotExist

/-- Helper for `strings.Contains`: does `needle` occur as a contiguous
run inside `l`? -/
def infixAux (needle : List Char) : List Char → Bool
  | [] => needle.isEmpty
  | c :: tl => needle.isPrefixOf (c :: tl) || infixAux needle tl

/-- `strings.Contains(haystack, needle)`. -/
def containsSubstring (haystack needle : String) : Bool :=
  infixAux needle.data haystack.data

/-- `strconv.ParseInt(s, 10, 64)`: optional sign, at least one decimal
digit, no other characters, and the value must fit in a signed 64-bit
integer. On failure the returned message mirrors Go's `*strconv.NumError`
text. -/
def goParseInt64 (s : String) : Except String Int :=
  let cs := s.data
  let signedDigits : Bool × List Char :=
    match cs with
    | '-' :: rest => (true, rest)
    | '+' :: rest => (false, rest)
    | _ => (false, cs)
  let neg := signedDigits.1
  let ds := signedDigits.2
  if ds.isEmpty then
    .error ("strconv.ParseInt: parsing \"" ++ s ++ "\": invalid syntax")
  else if ds.all (fun c => c.isDigit) then
    let n : Nat := ds.foldl (fun acc c => acc * 10 + (c.toNat - 48)) 0
    let v : Int := if neg then -(n : Int) else (n : Int)
    if v < -(2 ^ 63) || 2 ^ 63 - 1 < v then
      .error ("strconv.ParseInt: parsing \"" ++ s ++ "\": value out of range")
    else
      .ok v
  else
    .error ("strconv.ParseInt: parsing \"" ++ s ++ "\": invalid syntax")

/-- The slice of `planmodifier.Int64Response` the helper reads and writes:
the plan value (`types.Int64`, `some v` once set to a known value), the
`RequiresReplace` flag and the diagnostics list. -/
structure Int64Response where
  planValue : Option Int
  requiresReplace : Bool
  diagnostics : List Diagnostic
deriving DecidableEq, Repr

/-- The slice of `resource.ReadResponse` the helper touches: diagnostics
and whether `State.RemoveResource` has been called. -/
structure ReadResponse where
  diagnostics : List Diagnostic
  stateRemoved : Bool
deriving DecidableEq, Repr

/-- The slice of `resource.DeleteResponse` the helper touches. -/
structure DeleteResponse where
  diagnostics : List Diagnostic
deriving DecidableEq, Repr

/-- `applySizeRequiresReplace` from `storage_helpers.go`: compares the
stored original size with the current remote size and sets
replacement/diagnostics accordingly. The Go function mutates `resp`;
here it returns the updated response. `originalStateSizeBytes` is `none`
for a nil byte slice and `some s` for a (possibly empty) non-nil slice. -/
def applySizeRequiresReplace
    (resp : Int64Response)
    (originalStateSizeBytes : Option String)
    (stateSize : Int)
    (planOverwrite : Bool)
    (resourceKind : String) : Int64Response :=
  match originalStateSizeBytes with
  | none => resp
  | some s =>
    match goParseInt64 s with
    | .error e =>
      { resp with diagnostics := resp.diagnostics ++
          [⟨.error,
            "Unable to convert original state " ++ resourceKind ++ " size to int64",
            "Unexpected error in parsing string to int64, key original_state_size. " ++
              "Please retry the operation or report this issue to the provider developers.\n\n" ++
              "Error: " ++ e⟩] }
    | .ok originalStateSize =>
      if stateSize != originalStateSize && planOverwrite then
        { resp with
            requiresReplace := true,
            planValue := some originalStateSize,
            diagnostics := resp.diagnostics ++
              [⟨.warning,
                "The " ++ resourceKind ++ " size in datastore has changed outside of terraform.",
                "Previous size: " ++ toString originalStateSize ++
                  " saved in state does not match current size from datastore: " ++
                  toString stateSize ++
                  ". You can disable this behaviour by using overwrite=false"⟩] }
      else
        resp

/-- `handleReadResult` from `storage_helpers.go`: classifies the error of
a read. Returns the handled flag together with the updated response. -/
def handleReadResult
    (resp : ReadResponse) (err : Option GoError) (notExistMessage : String) :
    Bool × ReadResponse :=
  match err with
  | some e =>
    if containsSubstring e.message "failed to authenticate" then
      (true, { resp with diagnostics := resp.diagnostics ++
          [⟨.error, "Failed to authenticate", e.message⟩] })
    else
      (true, { diagnostics := resp.diagnostics ++ [⟨.warning, notExistMessage, e.message⟩],
               stateRemoved := true })
  | none => (false, resp)

/-- `handleDatastoreDeleteError` from `storage_helpers.go`: classifies the
error of a delete on a datastore file/resource. -/
def handleDatastoreDeleteError
    (resp : DeleteResponse) (err : Option GoError) (id itemKind : String) :
    DeleteResponse :=
  match err with
  | none => resp
  | some e =>
    if e.isResourceDoesNotExist then
      resp
    else if containsSubstring e.message "unable to parse" then
      { resp with diagnostics := resp.diagnostics ++
          [⟨.warning,
            "Datastore " ++ itemKind ++ " does not exist",
            "Could not delete datastore " ++ itemKind ++ " \x27" ++ id ++
              "\x27, it does not exist or has been deleted outside of Terraform."⟩] }
    else
      { resp with diagnostics := resp.diagnostics ++
          [⟨.error,
            "Error deleting datastore " ++ itemKind,
            "Could not delete datastore " ++ itemKind ++ " \x27" ++ id ++
              "\x27, unexpected error: " ++ e.message⟩] }

/-! ### Substring lemmas -/

lemma isPrefixOf_append (l t : List Char) : l.isPrefixOf (l ++ t) = true := by
  induction l with
  | nil => cases t <;> rfl
  | cons c cs ih =>
    simp [List.isPrefixOf, ih]

lemma infixAux_cons (n : List Char) (c : Char) (l : List Char)
    (h : infixAux n l = true) : infixAux n (c :: l) = true := by
  simp [infixAux, h]

lemma infixAux_append_left (pre n l : List Char)
    (h : infixAux n l = true) : infixAux n (pre ++ l) = true := by
  induction pre with
  | nil => simpa using h
  | cons c cs ih => exact infixAux_cons _ _ _ ih

lemma infixAux_self_append (n t : List Char) : infixAux n (n ++ t) = true := by
  cases n with
  | nil =>
    cases t with
    | nil => rfl
    | cons c cs => simp [infixAux]
  | cons c cs =>
    simp [infixAux, isPrefixOf_append (c :: cs) t]

lemma containsSubstring_of_parts (x n y : String) :
    containsSubstring (x ++ n ++ y) n = true := by
  unfold containsSubstring
  rw [String.data_append, String.data_append, List.append_assoc]
  exact infixAux_append_left x.data n.data (n.data ++ y.data)
    (infixAux_self_append n.data y.data)

lemma containsSubstring_append_right (x n : String) :
    containsSubstring (x ++ n) n = true := by
  have h := containsSubstring_of_parts x n ""
  simpa using h

lemma isPrefixOf_extend (l m t : List Char) (h : l.isPrefixOf m = true) :
    l.isPrefixOf (m ++ t) = true := by
  rw [List.isPrefixOf_iff_prefix] at h ⊢
  exact h.trans (List.prefix_append m t)

lemma infixAux_nil_needle (l : List Char) : infixAux ([] : List Char) l = true := by
  cases l <;> simp [infixAux, List.isPrefixOf]

lemma infixAux_append_right (n l t : List Char) (h : infixAux n l = true) :
    infixAux n (l ++ t) = true := by
  induction l with
  | nil =>
    have hn : n = [] := by simpa [infixAux, List.isEmpty_iff] using h
    subst hn
    exact infixAux_nil_needle t
  | cons c cs ih =>
    simp only [infixAux, Bool.or_eq_true] at h
    rcases h with h | h
    · simp only [List.cons_append, infixAux, Bool.or_eq_true]
      exact Or.inl (isPrefixOf_extend n (c :: cs) t h)
    · simp only [List.cons_append, infixAux, Bool.or_eq_true]
      exact Or.inr (ih h)

lemma containsSubstring_extend_left (x h n : String)
    (hc : containsSubstring h n = true) : containsSubstring (x ++ h) n = true := by
  unfold containsSubstring at hc ⊢
  rw [String.data_append]
  exact infixAux_append_left x.data n.data h.data hc

lemma containsSubstring_extend_right (h y n : String)
    (hc : containsSubstring h n = true) : containsSubstring (h ++ y) n = true := by
  unfold containsSubstring at hc ⊢
  rw [String.data_append]
  exact infixAux_append_right n.data h.data y.data hc

/-! ### Claim theorems -/

/-- C6: for every absent (nil) baseline, `applySizeRequiresReplace` returns
the response unchanged — a no-op decision with zero new diagnostics,
`requiresReplace` untouched and no plan value set — regardless of the
observed value and of the policy flag. -/
theorem C6_nil_baseline_noop (resp : Int64Response) (observed : Int) (policy : Bool)
    (kind : String) :
    applySizeRequiresReplace resp none observed policy kind = resp := rfl

/-- C7: for every well-formed baseline (one that parses to `b`),
`applySizeRequiresReplace` is a no-op — response returned unchanged, so
no force-replace, no diagnostics, plan value untouched — whenever the
parsed baseline equals the observed value or the overwrite policy flag is
false. -/
theorem C7_noop_when_equal_or_optout (resp : Int64Response) (s : String) (b observed : Int)
    (policy : Bool) (kind : String) (hp : goParseInt64 s = .ok b)
    (h : b = observed ∨ policy = false) :
    applySizeRequiresReplace resp (some s) observed policy kind = resp := by
  have hc : (observed != b && policy) = false := by
    rcases h with h | h
    · subst h; simp
    · subst h; simp
  simp [applySizeRequiresReplace, hp, hc]

/-- C7 witness: baseline "100" equal to observed 100 under policy true,
and baseline "100" with observed 150 under policy false, are both no-ops. -/
theorem C7_noop_witness :
    applySizeRequiresReplace ⟨none, false, []⟩ (some "100") 100 true "file" =
      (⟨none, false, []⟩ : Int64Response) ∧
    applySizeRequiresReplace ⟨none, false, []⟩ (some "100") 150 false "file" =
      (⟨none, false, []⟩ : Int64Response) :=
  ⟨C7_noop_when_equal_or_optout ⟨none, false, []⟩ "100" 100 100 true "file" rfl (Or.inl rfl),
   C7_noop_when_equal_or_optout ⟨none, false, []⟩ "100" 100 150 false "file" rfl (Or.inr rfl)⟩

/-- C10: the resource-does-not-exist sentinel takes absolute precedence in
`handleDatastoreDeleteError`: for every error for which `errors.Is` reports
the sentinel — including errors wrapping it — the response is returned
unchanged (zero diagnostics), whatever the error message says. -/
theorem C10_sentinel_precedence (resp : DeleteResponse) (e : GoError) (id kind : String)
    (h : e.isResourceDoesNotExist = true) :
    handleDatastoreDeleteError resp (some e) id kind = resp := by
  simp [handleDatastoreDeleteError, h]

/-- C10 witness: an error wrapping the sentinel whose own message contains
"unable to parse" still yields success with zero diagnostics. -/
theorem C10_sentinel_witness :
    handleDatastoreDeleteError ⟨[]⟩
      (some (.wrap "ctx: unable to parse volume id" .resourceDoesNotExist)) "x" "disk" =
      (⟨[]⟩ : DeleteResponse) :=
  C10_sentinel_precedence ⟨[]⟩
    (.wrap "ctx: unable to parse volume id" .resourceDoesNotExist) "x" "disk" rfl

/-- C2: `handleReadResult` classification. A nil error yields
`(false, resp)` (proceed, no diagnostics, state untouched). An error whose
message contains "failed to authenticate" yields handled=true with exactly
one Error diagnostic (summary "Failed to authenticate", detail the error
text) and the state-removed flag unchanged. Any other error yields
handled=true, removes the resource from state, and appends exactly one
Warning whose summary is the caller-supplied message and whose detail is
the error text. -/
theorem C2_classify_read (resp : ReadResponse) (msg : String) (e : GoError) :
    handleReadResult resp none msg = (false, resp) ∧
    (containsSubstring e.message "failed to authenticate" = true →
      handleReadResult resp (some e) msg =
        (true, { resp with diagnostics := resp.diagnostics ++
            [⟨.error, "Failed to authenticate", e.message⟩] })) ∧
    (containsSubstring e.message "failed to authenticate" = false →
      handleReadResult resp (some e) msg =
        (true, { diagnostics := resp.diagnostics ++ [⟨.warning, msg, e.message⟩],
                 stateRemoved := true })) := by
  refine ⟨rfl, fun h => ?_, fun h => ?_⟩ <;> simp [handleReadResult, h]

/-- C2 witness: an authentication failure keeps the resource tracked and
reports a hard error; a not-found style error removes it with a warning;
both applied at concrete inputs. -/
theorem C2_classify_read_witness :
    handleReadResult ⟨[], false⟩ (some (.plain "failed to authenticate: bad creds")) "m" =
      (true, ⟨[⟨.error, "Failed to authenticate", "failed to authenticate: bad creds"⟩], false⟩) ∧
    handleReadResult ⟨[], false⟩ (some (.plain "object xyz not found")) "m" =
      (true, ⟨[⟨.warning, "m", "object xyz not found"⟩], true⟩) :=
  ⟨(C2_classify_read ⟨[], false⟩ "m" (.plain "failed to authenticate: bad creds")).2.1
      (by decide),
   (C2_classify_read ⟨[], false⟩ "m" (.plain "object xyz not found")).2.2 (by decide)⟩

/-- C1: for every baseline parsing to an integer `b` different from the
observed size, with the overwrite policy true, `applySizeRequiresReplace`
sets `requiresReplace`, pins the plan value to the parsed baseline, and
appends exactly one Warning diagnostic whose detail cites both the
baseline and the observed size and names the `overwrite` policy flag. -/
theorem C1_force_replace_on_drift (resp : Int64Response) (s : String) (b observed : Int)
    (kind : String) (hp : goParseInt64 s = .ok b) (hne : b ≠ observed) :
    (applySizeRequiresReplace resp (some s) observed true kind).requiresReplace = true ∧
    (applySizeRequiresReplace resp (some s) observed true kind).planValue = some b ∧
    ∃ w : Diagnostic,
      (applySizeRequiresReplace resp (some s) observed true kind).diagnostics =
        resp.diagnostics ++ [w] ∧
      w.severity = Severity.warning ∧
      containsSubstring w.detail (toString b) = true ∧
      containsSubstring w.detail (toString observed) = true ∧
      containsSubstring w.detail "overwrite" = true := by
  have hob : (observed != b) = true := by
    rw [bne_iff_ne]
    exact fun hh => hne hh.symm
  have hred : applySizeRequiresReplace resp (some s) observed true kind =
      { resp with
          requiresReplace := true,
          planValue := some b,
          diagnostics := resp.diagnostics ++
            [⟨.warning,
              "The " ++ kind ++ " size in datastore has changed outside of terraform.",
              "Previous size: " ++ toString b ++
                " saved in state does not match current size from datastore: " ++
                toString observed ++
                ". You can disable this behaviour by using overwrite=false"⟩] } := by
    simp [applySizeRequiresReplace, hp, hob]
  rw [hred]
  refine ⟨rfl, rfl, ⟨_, rfl, rfl, ?_, ?_, ?_⟩⟩
  · exact containsSubstring_extend_right _ _ _
      (containsSubstring_extend_right _ _ _
        (containsSubstring_extend_right _ _ _
          (containsSubstring_append_right "Previous size: " (toString b))))
  · exact containsSubstring_extend_right _ _ _
      (containsSubstring_append_right _ (toString observed))
  · exact containsSubstring_extend_left _ _ _ (by decide)

/-- C1 witness: baseline "100", observed 150, policy true forces
replacement, pins the plan to 100, and the single warning cites 100 and
150 and the overwrite flag. -/
theorem C1_drift_witness :
    (applySizeRequiresReplace ⟨none, false, []⟩ (some "100") 150 true "file").requiresReplace =
      true ∧
    (applySizeRequiresReplace ⟨none, false, []⟩ (some "100") 150 true "file").planValue =
      some 100 :=
  ⟨(C1_force_replace_on_drift ⟨none, false, []⟩ "100" 100 150 "file" rfl (by decide)).1,
   (C1_force_replace_on_drift ⟨none, false, []⟩ "100" 100 150 "file" rfl (by decide)).2.1⟩

/-- C4: for every baseline that fails to parse as a base-10 integer,
`applySizeRequiresReplace` appends exactly one Error diagnostic whose
summary names the resource kind, whose detail names the field
`original_state_size` and includes the underlying parse error text, and
is otherwise a no-op: `requiresReplace` and the plan value are left
exactly as they were. -/
theorem C4_parse_error_diag (resp : Int64Response) (s perr : String) (observed : Int)
    (policy : Bool) (kind : String) (hp : goParseInt64 s = .error perr) :
    (applySizeRequiresReplace resp (some s) observed policy kind).requiresReplace =
      resp.requiresReplace ∧
    (applySizeRequiresReplace resp (some s) observed policy kind).planValue =
      resp.planValue ∧
    ∃ d : Diagnostic,
      (applySizeRequiresReplace resp (some s) observed policy kind).diagnostics =
        resp.diagnostics ++ [d] ∧
      d.severity = Severity.error ∧
      containsSubstring d.summary kind = true ∧
      containsSubstring d.detail "original_state_size" = true ∧
      containsSubstring d.detail perr = true := by
  have hred : applySizeRequiresReplace resp (some s) observed policy kind =
      { resp with diagnostics := resp.diagnostics ++
          [⟨.error,
            "Unable to convert original state " ++ kind ++ " size to int64",
            "Unexpected error in parsing string to int64, key original_state_size. " ++
              "Please retry the operation or report this issue to the provider developers.\n\n" ++
              "Error: " ++ perr⟩] } := by
    simp [applySizeRequiresReplace, hp]
  rw [hred]
  refine ⟨rfl, rfl, ⟨_, rfl, rfl, ?_, ?_, ?_⟩⟩
  · exact containsSubstring_of_parts "Unable to convert original state " kind " size to int64"
  · exact containsSubstring_extend_right _ _ _ (by decide)
  · exact containsSubstring_append_right _ perr

/-- C4 witness: the non-numeric baseline "abc" under policy true leaves
the decision a no-op (no force-replace, plan value untouched). -/
theorem C4_parse_error_witness :
    (applySizeRequiresReplace ⟨none, false, []⟩ (some "abc") 150 true "file").requiresReplace =
      false ∧
    (applySizeRequiresReplace ⟨none, false, []⟩ (some "abc") 150 true "file").planValue =
      none :=
  ⟨(C4_parse_error_diag ⟨none, false, []⟩ "abc"
      "strconv.ParseInt: parsing \"abc\": invalid syntax" 150 true "file" rfl).1,
   (C4_parse_error_diag ⟨none, false, []⟩ "abc"
      "strconv.ParseInt: parsing \"abc\": invalid syntax" 150 true "file" rfl).2.1⟩

/-- C5: invariant — whenever `applySizeRequiresReplace` turns
`requiresReplace` on (starting from a response where it was off), the
baseline was present and parsed to some `b`, and the resolved plan value
is exactly that parsed baseline. -/
theorem C5_replace_pins_baseline (resp : Int64Response) (hr : resp.requiresReplace = false)
    (ob : Option String) (observed : Int) (policy : Bool) (kind : String)
    (h : (applySizeRequiresReplace resp ob observed policy kind).requiresReplace = true) :
    ∃ s b, ob = some s ∧ goParseInt64 s = Except.ok b ∧
      (applySizeRequiresReplace resp ob observed policy kind).planValue = some b := by
  cases ob with
  | none =>
    have h' : resp.requiresReplace = true := h
    rw [hr] at h'
    simp at h'
  | some s =>
    cases hps : goParseInt64 s with
    | error e =>
      simp [applySizeRequiresReplace, hps] at h
      rw [hr] at h
      simp at h
    | ok b =>
      cases hc : (observed != b && policy) with
      | true =>
        refine ⟨s, b, rfl, hps, ?_⟩
        simp [applySizeRequiresReplace, hps, hc]
      | false =>
        exfalso
        simp [applySizeRequiresReplace, hps, hc] at h
        rw [hr] at h
        simp at h

/-- C5 witness: the invariant applied at baseline "100", observed 150,
policy true. -/
theorem C5_pins_witness :
    ∃ s b, (some "100" : Option String) = some s ∧ goParseInt64 s = Except.ok b ∧
      (applySizeRequiresReplace ⟨none, false, []⟩ (some "100") 150 true "file").planValue =
        some b :=
  C5_replace_pins_baseline ⟨none, false, []⟩ rfl (some "100") 150 true "file" rfl

/-- C9: an empty but non-nil baseline is not treated as absent:
`applySizeRequiresReplace` attempts to parse it, the parse fails with an
invalid-syntax error, and the result is the parse-error outcome — one
Error diagnostic appended (so the diagnostics actually change, unlike the
silent no-op for a nil baseline) and no force-replace. -/
theorem C9_empty_baseline_parse_error (resp : Int64Response) (observed : Int)
    (policy : Bool) (kind : String) :
    goParseInt64 "" = .error "strconv.ParseInt: parsing \"\": invalid syntax" ∧
    (applySizeRequiresReplace resp (some "") observed policy kind).requiresReplace =
      resp.requiresReplace ∧
    (applySizeRequiresReplace resp (some "") observed policy kind).planValue =
      resp.planValue ∧
    (∃ d : Diagnostic,
      (applySizeRequiresReplace resp (some "") observed policy kind).diagnostics =
        resp.diagnostics ++ [d] ∧
      d.severity = Severity.error) ∧
    (applySizeRequiresReplace resp (some "") observed policy kind).diagnostics ≠
      resp.diagnostics := by
  have hp : goParseInt64 "" = .error "strconv.ParseInt: parsing \"\": invalid syntax" := rfl
  have hred : applySizeRequiresReplace resp (some "") observed policy kind =
      { resp with diagnostics := resp.diagnostics ++
          [⟨.error,
            "Unable to convert original state " ++ kind ++ " size to int64",
            "Unexpected error in parsing string to int64, key original_state_size. " ++
              "Please retry the operation or report this issue to the provider developers.\n\n" ++
              "Error: " ++ "strconv.ParseInt: parsing \"\": invalid syntax"⟩] } := by
    simp [applySizeRequiresReplace, hp]
  refine ⟨hp, ?_, ?_, ?_, ?_⟩
  · rw [hred]
  · rw [hred]
  · rw [hred]
    exact ⟨_, rfl, rfl⟩
  · rw [hred]
    intro hcontra
    have hlen := congrArg List.length hcontra
    simp at hlen

/-- C3: `handleDatastoreDeleteError` classification. Nil error or the
resource-does-not-exist sentinel: response unchanged, zero diagnostics.
Otherwise, a message containing "unable to parse" yields exactly one
Warning referencing the item kind and id, and any other error yields
exactly one Error referencing the kind, the id, and the error text. -/
theorem C3_classify_delete (resp : DeleteResponse) (e : GoError) (id kind : String) :
    handleDatastoreDeleteError resp none id kind = resp ∧
    (e.isResourceDoesNotExist = true →
      handleDatastoreDeleteError resp (some e) id kind = resp) ∧
    (e.isResourceDoesNotExist = false →
      containsSubstring e.message "unable to parse" = true →
      ∃ w : Diagnostic,
        handleDatastoreDeleteError resp (some e) id kind =
          { resp with diagnostics := resp.diagnostics ++ [w] } ∧
        w.severity = Severity.warning ∧
        containsSubstring w.summary kind = true ∧
        containsSubstring w.detail kind = true ∧
        containsSubstring w.detail id = true) ∧
    (e.isResourceDoesNotExist = false →
      containsSubstring e.message "unable to parse" = false →
      ∃ d : Diagnostic,
        handleDatastoreDeleteError resp (some e) id kind =
          { resp with diagnostics := resp.diagnostics ++ [d] } ∧
        d.severity = Severity.error ∧
        containsSubstring d.summary kind = true ∧
        containsSubstring d.detail kind = true ∧
        containsSubstring d.detail id = true ∧
        containsSubstring d.detail e.message = true) := by
  refine ⟨rfl, fun h => by simp [handleDatastoreDeleteError, h], fun h hu => ?_,
    fun h hu => ?_⟩
  · have hred : handleDatastoreDeleteError resp (some e) id kind =
        { resp with diagnostics := resp.diagnostics ++
            [⟨.warning,
              "Datastore " ++ kind ++ " does not exist",
              "Could not delete datastore " ++ kind ++ " \x27" ++ id ++
                "\x27, it does not exist or has been deleted outside of Terraform."⟩] } := by
      simp [handleDatastoreDeleteError, h, hu]
    rw [hred]
    refine ⟨_, rfl, rfl, ?_, ?_, ?_⟩
    · exact containsSubstring_of_parts "Datastore " kind " does not exist"
    · exact containsSubstring_extend_right _ _ _
        (containsSubstring_extend_right _ _ _
          (containsSubstring_of_parts "Could not delete datastore " kind " \x27"))
    · exact containsSubstring_of_parts _ id _
  · have hred : handleDatastoreDeleteError resp (some e) id kind =
        { resp with diagnostics := resp.diagnostics ++
            [⟨.error,
              "Error deleting datastore " ++ kind,
              "Could not delete datastore " ++ kind ++ " \x27" ++ id ++
                "\x27, unexpected error: " ++ e.message⟩] } := by
      simp [handleDatastoreDeleteError, h, hu]
    rw [hred]
    refine ⟨_, rfl, rfl, ?_, ?_, ?_, ?_⟩
    · exact containsSubstring_append_right "Error deleting datastore " kind
    · exact containsSubstring_extend_right _ _ _
        (containsSubstring_extend_right _ _ _
          (containsSubstring_extend_right _ _ _
            (containsSubstring_of_parts "Could not delete datastore " kind " \x27")))
    · exact containsSubstring_extend_right _ _ _ (containsSubstring_of_parts _ id _)
    · exact containsSubstring_append_right _ e.message

/-- C3 witness: an unclassified delete error at concrete inputs yields
exactly one Error diagnostic referencing the kind, the id and the error
text. -/
theorem C3_classify_delete_witness :
    ∃ d : Diagnostic,
      handleDatastoreDeleteError ⟨[]⟩ (some (.plain "boom")) "x" "disk" = ⟨[d]⟩ ∧
      d.severity = Severity.error ∧
      containsSubstring d.summary "disk" = true ∧
      containsSubstring d.detail "disk" = true ∧
      containsSubstring d.detail "x" = true ∧
      containsSubstring d.detail "boom" = true :=
  (C3_classify_delete ⟨[]⟩ (.plain "boom") "x" "disk").2.2.2 rfl (by decide)

/-- C8: both classifiers are deterministic pure functions: two invocations
on identical inputs produce identical outcomes and identical diagnostic
content. In this embedding the classifiers are functions of their inputs
alone, so equal inputs give equal results by congruence. -/
theorem C8_classifiers_deterministic
    (r₁ r₂ : ReadResponse) (e₁ e₂ : Option GoError) (m₁ m₂ : String)
    (d₁ d₂ : DeleteResponse) (f₁ f₂ : Option GoError) (i₁ i₂ k₁ k₂ : String)
    (hr : r₁ = r₂) (he : e₁ = e₂) (hm : m₁ = m₂)
    (hd : d₁ = d₂) (hf : f₁ = f₂) (hi : i₁ = i₂) (hk : k₁ = k₂) :
    handleReadResult r₁ e₁ m₁ = handleReadResult r₂ e₂ m₂ ∧
    handleDatastoreDeleteError d₁ f₁ i₁ k₁ = handleDatastoreDeleteError d₂ f₂ i₂ k₂ := by
  subst hr he hm hd hf hi hk
  exact ⟨rfl, rfl⟩

/-- C8 witness: the determinism theorem applied at concrete identical
inputs for both classifiers. -/
theorem C8_deterministic_witness :
    handleReadResult ⟨[], false⟩ (some (.plain "boom")) "m" =
      handleReadResult ⟨[], false⟩ (some (.plain "boom")) "m" ∧
    handleDatastoreDeleteError ⟨[]⟩ (some (.plain "boom")) "x" "disk" =
      handleDatastoreDeleteError ⟨[]⟩ (some (.plain "boom")) "x" "disk" :=
  C8_classifiers_deterministic ⟨[], false⟩ ⟨[], false⟩ (some (.plain "boom"))
    (some (.plain "boom")) "m" "m" ⟨[]⟩ ⟨[]⟩ (some (.plain "boom")) (some (.plain "boom"))
    "x" "x" "disk" "disk" rfl rfl rfl rfl rfl rfl rfl

end StorageHelpers
